import Mathlib

/-!
Verification of the financial calculators of the free-tools repository.

Each JavaScript controller is embedded shallowly: JS numbers become exact
rationals (ℚ) where every exponent in the source is an integer count of
months or years, and reals (ℝ, with `Real.rpow` for `Math.pow`) where the
source raises to a possibly fractional exponent.  A controller that throws
on bad input becomes a function into `Except String`, with the checks in
the order the source performs them; `Math.round(x * 100) / 100` becomes
`round2` / `round2R` (JS `Math.round` rounds half toward positive
infinity, i.e. `⌊x + 1/2⌋`).
-/

/-- JS `Math.round(x * 100) / 100` on rationals (via the executable `Rat.floor`,
so that concrete instances evaluate by `decide`). -/
def round2 (x : ℚ) : ℚ := ((x * 100 + 1/2).floor : ℚ) / 100

/-- JS `Math.round(x * 100) / 100` on reals. -/
noncomputable def round2R (x : ℝ) : ℝ := (⌊x * 100 + 1/2⌋ : ℝ) / 100

theorem ratFloor_eq_intFloor (q : ℚ) : q.floor = ⌊q⌋ := by
  rw [Rat.floor_def', Rat.floor_def]

theorem round2_eq_intFloor (x : ℚ) : round2 x = (⌊x * 100 + 1/2⌋ : ℚ) / 100 := by
  unfold round2
  rw [ratFloor_eq_intFloor]

theorem round2R_ratCast (q : ℚ) : round2R (q : ℝ) = (round2 q : ℝ) := by
  rw [round2_eq_intFloor]
  unfold round2R
  have h : ((q : ℝ) * 100 + 1/2) = ((q * 100 + 1/2 : ℚ) : ℝ) := by push_cast; ring
  rw [h, Rat.floor_cast]
  push_cast
  ring

/-- `|round2 x - x| ≤ 1/200`: rounding to cents moves a value by at most half a cent. -/
theorem abs_round2_sub_le (x : ℚ) : |round2 x - x| ≤ 1/200 := by
  rw [round2_eq_intFloor, abs_le]
  constructor
  · have h1 : (x * 100 + 1/2) - 1 < (⌊x * 100 + 1/2⌋ : ℚ) := Int.sub_one_lt_floor _
    nlinarith
  · have h2 : (⌊x * 100 + 1/2⌋ : ℚ) ≤ x * 100 + 1/2 := Int.floor_le _
    nlinarith

namespace EMI

/-- Result record of `calculateEMI` (src/controllers/emiCalculatorController.js). -/
structure EMIResult where
  loanAmount : ℚ
  interestRate : ℚ
  tenureMonths : ℚ
  monthlyEMI : ℚ
  totalInterest : ℚ
  totalPayable : ℚ
deriving DecidableEq, Repr

/-- `validateInputs(loanAmount, interestRate, tenureMonths)` of the EMI controller:
the three checks in source order; `!tenureMonths` (JS falsiness) is `= 0`,
`Number.isInteger` is `den = 1`. -/
def validateInputs (loanAmount interestRate tenureMonths : ℚ) : Except String Unit :=
  if loanAmount = 0 ∨ loanAmount ≤ 0 then
    .error "Loan amount must be greater than 0"
  else if interestRate < 0 ∨ interestRate > 100 then
    .error "Interest rate must be between 0 and 100"
  else if tenureMonths = 0 ∨ tenureMonths ≤ 0 ∨ tenureMonths.den ≠ 1 then
    .error "Loan tenure must be a positive integer (in months)"
  else
    .ok ()

/-- The unrounded monthly EMI of `calculateEMI` (lines 25-38): monthly rate
`interestRate / (12 * 100)`; if it is 0 the EMI is `loanAmount / tenureMonths`,
else `P * r * (1+r)^N / ((1+r)^N - 1)`.  After validation `tenureMonths` is a
positive integer, so the `Math.pow` exponent is the natural number
`tenureMonths.num.toNat`. -/
def monthlyEMIRaw (loanAmount interestRate tenureMonths : ℚ) : ℚ :=
  let monthlyRate := interestRate / (12 * 100)
  if monthlyRate = 0 then
    loanAmount / tenureMonths
  else
    let factor := (1 + monthlyRate) ^ tenureMonths.num.toNat
    (loanAmount * monthlyRate * factor) / (factor - 1)

/-- `calculateEMI(loanAmount, interestRate, tenureMonths)`: validate, compute the
EMI, the totals from the unrounded EMI, then round each to 2 decimals. -/
def calculateEMI (loanAmount interestRate tenureMonths : ℚ) : Except String EMIResult := do
  let _ ← validateInputs loanAmount interestRate tenureMonths
  let monthlyEMI := monthlyEMIRaw loanAmount interestRate tenureMonths
  let totalPayable := monthlyEMI * tenureMonths
  let totalInterest := totalPayable - loanAmount
  return { loanAmount := loanAmount
           interestRate := interestRate
           tenureMonths := tenureMonths
           monthlyEMI := round2 monthlyEMI
           totalInterest := round2 totalInterest
           totalPayable := round2 totalPayable }

/-- One row of the amortization schedule (month, principal, interest, balance),
as pushed by `generateAmortizationSchedule`. -/
structure AmortEntry where
  month : ℕ
  principal : ℚ
  interest : ℚ
  balance : ℚ
deriving DecidableEq, Repr

/-- The loop body of `generateAmortizationSchedule` (lines 84-95): the running
balance before month `month` is `balance`; `remaining` months are left.
`interestComponent = balance * monthlyRate`, `principalComponent = monthlyEMI -
interestComponent`, `balance -= principalComponent`, entries rounded and the
reported balance clamped with `Math.max(0, _)`. -/
def amortAux (monthlyRate monthlyEMI : ℚ) : ℚ → ℕ → ℕ → List AmortEntry
  | _, _, 0 => []
  | balance, month, remaining + 1 =>
    let interestComponent := balance * monthlyRate
    let principalComponent := monthlyEMI - interestComponent
    let newBalance := balance - principalComponent
    { month := month
      principal := round2 principalComponent
      interest := round2 interestComponent
      balance := max 0 (round2 newBalance) }
      :: amortAux monthlyRate monthlyEMI newBalance (month + 1) remaining

/-- `generateAmortizationSchedule(loanAmount, interestRate, tenureMonths, monthlyEMI)`. -/
def generateAmortizationSchedule (loanAmount interestRate : ℚ) (tenureMonths : ℕ)
    (monthlyEMI : ℚ) : List AmortEntry :=
  amortAux (interestRate / (12 * 100)) monthlyEMI loanAmount 1 tenureMonths

/-- The unrounded running balance of the amortization loop after `m` months. -/
def amortBalance (loanAmount monthlyRate monthlyEMI : ℚ) : ℕ → ℚ
  | 0 => loanAmount
  | m + 1 =>
    let balance := amortBalance loanAmount monthlyRate monthlyEMI m
    balance - (monthlyEMI - balance * monthlyRate)

end EMI

namespace SIP

/-- One entry of the SIP year-wise growth data. -/
structure SIPGrowthEntry where
  year : ℕ
  totalInvestment : ℝ
  estimatedReturns : ℝ
  totalValue : ℝ

/-- Result record of `calculateSIP` (src/controllers/sipCalculatorController.js). -/
structure SIPResult where
  monthlyInvestment : ℚ
  investmentPeriod : ℚ
  expectedROI : ℚ
  totalInvestment : ℝ
  estimatedReturns : ℝ
  totalValue : ℝ
  returnsPercentage : ℝ
  yearWiseGrowth : List SIPGrowthEntry

/-- `calculateFutureValueOfAnnuity(monthlyPayment, annualROI, months)` of the SIP
controller (lines 66-79): annuity-due, `PMT * ((1+r)^n - 1)/r * (1+r)`; the
`Math.pow` is real exponentiation since `months` need not be integral. -/
noncomputable def calculateFutureValueOfAnnuity (monthlyPayment annualROI months : ℝ) : ℝ :=
  let monthlyRate := annualROI / 12 / 100
  if monthlyRate = 0 then
    monthlyPayment * months
  else
    let factor := (1 + monthlyRate) ^ months
    monthlyPayment * ((factor - 1) / monthlyRate) * (1 + monthlyRate)

/-- `calculateYearWiseGrowth(monthlyInvestment, annualROI, years)`: the JS loop
`for (year = 1; year <= years; year++)` runs for `year = 1 .. ⌊years⌋`. -/
noncomputable def calculateYearWiseGrowth (monthlyInvestment annualROI years : ℚ) :
    List SIPGrowthEntry :=
  (List.range ⌊years⌋.toNat).map fun i =>
    let year := i + 1
    let months : ℕ := year * 12
    let monthlyRate : ℝ := (annualROI : ℝ) / 12 / 100
    let totalInvestment : ℝ := (monthlyInvestment : ℝ) * months
    let totalValue : ℝ :=
      if monthlyRate = 0 then totalInvestment
      else
        let factor := (1 + monthlyRate) ^ (months : ℝ)
        (monthlyInvestment : ℝ) * ((factor - 1) / monthlyRate) * (1 + monthlyRate)
    { year := year
      totalInvestment := round2R totalInvestment
      estimatedReturns := round2R (totalValue - totalInvestment)
      totalValue := round2R totalValue }

/-- `validateInputs(monthlyInvestment, investmentPeriod, expectedROI)` of the SIP
controller (lines 124-136), checks in source order; `!x` (JS falsiness) is `= 0`. -/
def validateInputs (monthlyInvestment investmentPeriod expectedROI : ℚ) : Except String Unit :=
  if monthlyInvestment = 0 ∨ monthlyInvestment < 500 then
    .error "Monthly investment must be at least ₹500"
  else if investmentPeriod = 0 ∨ investmentPeriod < 1 ∨ investmentPeriod > 50 then
    .error "Investment period must be between 1 and 50 years"
  else if expectedROI = 0 ∨ expectedROI < 1 ∨ expectedROI > 20 then
    .error "Expected ROI must be between 1% and 20%"
  else
    .ok ()

/-- `calculateSIP(monthlyInvestment, investmentPeriod, expectedROI)`. -/
noncomputable def calculateSIP (monthlyInvestment investmentPeriod expectedROI : ℚ) :
    Except String SIPResult := do
  let _ ← validateInputs monthlyInvestment investmentPeriod expectedROI
  let months := investmentPeriod * 12
  let totalInvestment : ℝ := (monthlyInvestment : ℝ) * (months : ℝ)
  let totalValue :=
    calculateFutureValueOfAnnuity (monthlyInvestment : ℝ) (expectedROI : ℝ) (months : ℝ)
  let estimatedReturns := totalValue - totalInvestment
  let returnsPercentage : ℝ :=
    if totalInvestment > 0 then (estimatedReturns / totalInvestment) * 100 else 0
  return { monthlyInvestment := monthlyInvestment
           investmentPeriod := investmentPeriod
           expectedROI := expectedROI
           totalInvestment := round2R totalInvestment
           estimatedReturns := round2R estimatedReturns
           totalValue := round2R totalValue
           returnsPercentage := round2R returnsPercentage
           yearWiseGrowth := calculateYearWiseGrowth monthlyInvestment expectedROI investmentPeriod }

end SIP

namespace Corpus

/-- One entry of the retirement-corpus year-wise growth data. -/
structure CorpusGrowthEntry where
  year : ℕ
  age : ℚ
  totalInvested : ℝ
  corpus : ℝ

/-- Result record of `calculateCorpus`
(src/controllers/retirementCorpusCalculatorController.js). -/
structure CorpusResult where
  currentAge : ℚ
  retirementAge : ℚ
  yearsUntilRetirement : ℚ
  monthlySavings : ℚ
  expectedROI : ℚ
  retirementCorpus : ℝ
  totalSavingsInvested : ℝ
  totalReturnsEarned : ℝ
  monthlyPensionEstimate : ℝ
  yearWiseGrowth : List CorpusGrowthEntry

/-- `calculateFutureValueOfAnnuity(monthlyPayment, annualROI, months)` of the
retirement-corpus controller (lines 71-83): ordinary annuity, `PMT * ((1+r)^n - 1)/r`. -/
noncomputable def calculateFutureValueOfAnnuity (monthlyPayment annualROI months : ℝ) : ℝ :=
  let monthlyRate := annualROI / 12 / 100
  if monthlyRate = 0 then
    monthlyPayment * months
  else
    let factor := (1 + monthlyRate) ^ months
    monthlyPayment * ((factor - 1) / monthlyRate)

/-- `calculateYearWiseGrowth(monthlySavings, annualROI, years, currentAge)`:
the JS loop `for (year = 1; year <= years; year++)` runs for `year = 1 .. ⌊years⌋`. -/
noncomputable def calculateYearWiseGrowth (monthlySavings annualROI years currentAge : ℚ) :
    List CorpusGrowthEntry :=
  (List.range ⌊years⌋.toNat).map fun i =>
    let year := i + 1
    let months : ℕ := year * 12
    let monthlyRate : ℝ := (annualROI : ℝ) / 12 / 100
    let corpus : ℝ :=
      if monthlyRate = 0 then (monthlySavings : ℝ) * months
      else
        let factor := (1 + monthlyRate) ^ (months : ℝ)
        (monthlySavings : ℝ) * ((factor - 1) / monthlyRate)
    { year := year
      age := currentAge + year
      totalInvested := round2R ((monthlySavings : ℝ) * months)
      corpus := round2R corpus }

/-- `validateInputs(currentAge, retirementAge, monthlySavings, expectedROI)` of the
retirement-corpus controller (lines 129-149), checks in source order. -/
def validateInputs (currentAge retirementAge monthlySavings expectedROI : ℚ) :
    Except String Unit :=
  if currentAge = 0 ∨ currentAge < 18 ∨ currentAge > 100 then
    .error "Current age must be between 18 and 100"
  else if retirementAge = 0 ∨ retirementAge < 40 ∨ retirementAge > 100 then
    .error "Retirement age must be between 40 and 100"
  else if retirementAge ≤ currentAge then
    .error "Retirement age must be greater than current age"
  else if monthlySavings = 0 ∨ monthlySavings ≤ 0 then
    .error "Monthly savings must be greater than 0"
  else if expectedROI = 0 ∨ expectedROI < 1 ∨ expectedROI > 20 then
    .error "Expected ROI must be between 1% and 20%"
  else
    .ok ()

/-- `calculateCorpus(currentAge, retirementAge, monthlySavings, expectedROI)`:
corpus by ordinary annuity over `(retirementAge - currentAge) * 12` months, and a
monthly pension estimate of `corpus / (20 * 12)` (hard-coded 20 retirement years). -/
noncomputable def calculateCorpus (currentAge retirementAge monthlySavings expectedROI : ℚ) :
    Except String CorpusResult := do
  let _ ← validateInputs currentAge retirementAge monthlySavings expectedROI
  let yearsUntilRetirement := retirementAge - currentAge
  let months := yearsUntilRetirement * 12
  let corpus :=
    calculateFutureValueOfAnnuity (monthlySavings : ℝ) (expectedROI : ℝ) (months : ℝ)
  let totalSavingsInvested : ℝ := (monthlySavings : ℝ) * (months : ℝ)
  let totalReturnsEarned := corpus - totalSavingsInvested
  let retirementYears : ℝ := 20
  let monthlyPensionEstimate := corpus / (retirementYears * 12)
  return { currentAge := currentAge
           retirementAge := retirementAge
           yearsUntilRetirement := yearsUntilRetirement
           monthlySavings := monthlySavings
           expectedROI := expectedROI
           retirementCorpus := round2R corpus
           totalSavingsInvested := round2R totalSavingsInvested
           totalReturnsEarned := round2R totalReturnsEarned
           monthlyPensionEstimate := round2R monthlyPensionEstimate
           yearWiseGrowth :=
             calculateYearWiseGrowth monthlySavings expectedROI yearsUntilRetirement currentAge }

end Corpus

namespace LoanEligibility

/-- The nested `eligibilityDetails` object of the loan-eligibility result. -/
structure EligibilityDetails where
  incomeMultiplier : ℝ
  debtToIncomeRatio : ℝ

/-- Result record of `calculateLoanEligibility` (src/unnamed/part_004). -/
structure LoanEligibilityResult where
  monthlyIncome : ℚ
  emiCapacity : ℚ
  emiCapacityPercentage : ℝ
  interestRate : ℚ
  loanTenure : ℚ
  eligibleLoanAmount : ℝ
  maximumEMI : ℚ
  totalInterestPayable : ℝ
  totalAmountPayable : ℝ
  eligibilityDetails : EligibilityDetails

/-- `calculateLoanAmountFromEMI(emi, annualROI, months)` (part_004 lines 187-199):
the reverse EMI formula `EMI * ((1+r)^n - 1) / (r * (1+r)^n)`, with the simple
product `emi * months` when the monthly rate is 0. -/
noncomputable def calculateLoanAmountFromEMI (emi annualROI months : ℝ) : ℝ :=
  let monthlyRate := annualROI / 12 / 100
  if monthlyRate = 0 then
    emi * months
  else
    let factor := (1 + monthlyRate) ^ months
    emi * ((factor - 1) / (monthlyRate * factor))

/-- `validateInputs(monthlyIncome, emiCapacity, interestRate, loanTenure)`
(part_004 lines 209-233), checks in source order, including the two
debt-to-income policy checks. -/
def validateInputs (monthlyIncome emiCapacity interestRate loanTenure : ℚ) :
    Except String Unit :=
  if monthlyIncome = 0 ∨ monthlyIncome < 10000 then
    .error "Monthly income must be at least ₹10,000"
  else if emiCapacity = 0 ∨ emiCapacity < 1000 then
    .error "EMI capacity must be at least ₹1,000"
  else if emiCapacity ≥ monthlyIncome then
    .error "EMI capacity must be less than monthly income"
  else if emiCapacity > monthlyIncome * (8/10) then
    .error "EMI capacity should not exceed 80% of monthly income"
  else if interestRate = 0 ∨ interestRate < 1 ∨ interestRate > 30 then
    .error "Interest rate must be between 1% and 30%"
  else if loanTenure = 0 ∨ loanTenure < 1 ∨ loanTenure > 30 then
    .error "Loan tenure must be between 1 and 30 years"
  else
    .ok ()

/-- `calculateLoanEligibility(monthlyIncome, emiCapacity, interestRate, loanTenure)`
(part_004 lines 135-176). -/
noncomputable def calculateLoanEligibility (monthlyIncome emiCapacity interestRate loanTenure : ℚ) :
    Except String LoanEligibilityResult := do
  let _ ← validateInputs monthlyIncome emiCapacity interestRate loanTenure
  let months := loanTenure * 12
  let eligibleLoanAmount :=
    calculateLoanAmountFromEMI (emiCapacity : ℝ) (interestRate : ℝ) (months : ℝ)
  let monthlyROI : ℝ := (interestRate : ℝ) / 12 / 100
  let totalInterestPayable : ℝ :=
    if monthlyROI > 0 then (emiCapacity : ℝ) * (months : ℝ) - eligibleLoanAmount else 0
  let totalAmountPayable := eligibleLoanAmount + totalInterestPayable
  let emiCapacityPercentage : ℝ := ((emiCapacity : ℝ) / (monthlyIncome : ℝ)) * 100
  return { monthlyIncome := monthlyIncome
           emiCapacity := emiCapacity
           emiCapacityPercentage := round2R emiCapacityPercentage
           interestRate := interestRate
           loanTenure := loanTenure
           eligibleLoanAmount := round2R eligibleLoanAmount
           maximumEMI := emiCapacity
           totalInterestPayable := round2R totalInterestPayable
           totalAmountPayable := round2R totalAmountPayable
           eligibilityDetails :=
             { incomeMultiplier := round2R ((eligibleLoanAmount / (monthlyIncome : ℝ)) * 100)
               debtToIncomeRatio := round2R emiCapacityPercentage } }

end LoanEligibility

namespace FD

/-- Result record of `calculateFD` (src/controllers/fdCalculatorController.js). -/
structure FDResult where
  principal : ℚ
  interestRate : ℚ
  tenure : ℚ
  compoundingFrequency : ℕ
  maturityAmount : ℝ
  totalInterestEarned : ℝ
  effectiveRate : ℝ

/-- `calculateMaturityAmount(principal, annualRate, tenureYears, compoundingFreq)`
(lines 61-65): `P * (1 + r/n)^(n*t)`; the exponent `n*t` may be fractional, so the
`Math.pow` is real exponentiation. -/
noncomputable def calculateMaturityAmount (principal annualRate tenureYears : ℝ)
    (compoundingFreq : ℕ) : ℝ :=
  let rateDecimal := annualRate / 100
  principal * (1 + rateDecimal / compoundingFreq) ^ ((compoundingFreq : ℝ) * tenureYears)

/-- `calculateEffectiveRate(annualRate, compoundingFreq)` (lines 74-78):
`((1 + r/n)^n - 1) * 100`, a natural-power since `compoundingFreq` counts periods. -/
noncomputable def calculateEffectiveRate (annualRate : ℝ) (compoundingFreq : ℕ) : ℝ :=
  let rateDecimal := annualRate / 100
  ((1 + rateDecimal / compoundingFreq) ^ compoundingFreq - 1) * 100

/-- `validateInputs(principal, interestRate, tenure)` of the FD controller
(lines 87-99), checks in source order. -/
def validateInputs (principal interestRate tenure : ℚ) : Except String Unit :=
  if principal = 0 ∨ principal < 1000 then
    .error "Principal amount must be at least ₹1,000"
  else if interestRate = 0 ∨ interestRate < 1 ∨ interestRate > 15 then
    .error "Interest rate must be between 1% and 15%"
  else if tenure = 0 ∨ tenure ≤ 0 ∨ tenure > 10 then
    .error "Tenure must be between 1 and 10 years"
  else
    .ok ()

/-- `calculateFD(principal, interestRate, tenure)`: fixed quarterly compounding,
`COMPOUNDING_FREQUENCY = 4`. -/
noncomputable def calculateFD (principal interestRate tenure : ℚ) : Except String FDResult := do
  let _ ← validateInputs principal interestRate tenure
  let COMPOUNDING_FREQUENCY : ℕ := 4
  let maturityAmount :=
    calculateMaturityAmount (principal : ℝ) (interestRate : ℝ) (tenure : ℝ) COMPOUNDING_FREQUENCY
  let totalInterestEarned := maturityAmount - (principal : ℝ)
  let effectiveRate := calculateEffectiveRate (interestRate : ℝ) COMPOUNDING_FREQUENCY
  return { principal := principal
           interestRate := interestRate
           tenure := tenure
           compoundingFrequency := COMPOUNDING_FREQUENCY
           maturityAmount := round2R maturityAmount
           totalInterestEarned := round2R totalInterestEarned
           effectiveRate := round2R effectiveRate }

end FD

namespace Interest

/-- The `interestType` enum of the interest calculator: after validation it is one
of the strings "simple" and "compound", modelled as an inductive type. -/
inductive InterestType where
  | simple
  | compound
deriving DecidableEq, Repr

/-- One row of the year-wise breakdown, as pushed by `generateYearWiseBreakdown`
(src/controllers/interestCalculatorController.js lines 115-164): `year` is the
loop counter, or the fractional `time` for a partial year. -/
structure YearRow where
  year : ℚ
  principalAtStart : ℝ
  interestForYear : ℝ
  totalAtEnd : ℝ

/-- Result record of `calculateInterest`. -/
structure InterestResult where
  principal : ℚ
  interestRate : ℚ
  timePeriod : ℚ
  interestType : InterestType
  interestAmount : ℝ
  totalAmount : ℝ
  growthRate : ℝ
  yearWiseBreakdown : List YearRow

/-- `calculateSimpleInterest(principal, rate, time)` (lines 79-87):
`(interest, totalAmount)`. -/
noncomputable def calculateSimpleInterest (principal rate time : ℚ) : ℝ × ℝ :=
  let interest : ℝ := ((principal : ℝ) * rate * time) / 100
  (interest, (principal : ℝ) + interest)

/-- `calculateCompoundInterest(principal, rate, time)` (lines 96-105):
`amount = P * (1 + rate/100)^time` with a possibly fractional exponent;
`(interest, totalAmount)`. -/
noncomputable def calculateCompoundInterest (principal rate time : ℚ) : ℝ × ℝ :=
  let amount : ℝ := (principal : ℝ) * (1 + (rate : ℝ) / 100) ^ ((time : ℚ) : ℝ)
  (amount - principal, amount)

/-- The simple-interest branch of the breakdown loop (lines 122-138): `year` is the
loop counter, `fuel` the remaining iterations allowed by `year <= ceil(time)`; after
pushing a row the loop breaks when `year === Math.floor(time)`. -/
def simpleRowsAux (principal yearlyInterest time : ℚ) : ℕ → ℕ → List YearRow
  | _, 0 => []
  | year, fuel + 1 =>
    let isPartialYear := (year : ℚ) > time
    let actualYear : ℚ := if isPartialYear then time else year
    let interestForYear : ℚ :=
      if isPartialYear then yearlyInterest * (time - ⌊time⌋) else yearlyInterest
    let totalAtEnd : ℚ := principal + yearlyInterest * actualYear
    { year := if isPartialYear then time else (year : ℚ)
      principalAtStart := (principal : ℝ)
      interestForYear := (interestForYear : ℝ)
      totalAtEnd := (totalAtEnd : ℝ) }
      :: (if (year : ℤ) = ⌊time⌋ then []
          else simpleRowsAux principal yearlyInterest time (year + 1) fuel)

/-- The compound-interest branch of the breakdown loop (lines 141-160):
`runningPrincipal` is threaded through the iterations; a partial year raises the
rate factor to the fractional exponent `time - ⌊time⌋` instead of a full year. -/
noncomputable def compoundRowsAux (rate time : ℚ) : ℝ → ℕ → ℕ → List YearRow
  | _, _, 0 => []
  | runningPrincipal, year, fuel + 1 =>
    let isPartialYear := (year : ℚ) > time
    let actualYear : ℚ := if isPartialYear then time - ⌊time⌋ else 1
    let interestForYear : ℝ :=
      runningPrincipal * ((1 + (rate : ℝ) / 100) ^ ((actualYear : ℚ) : ℝ) - 1)
    let totalAtEnd := runningPrincipal + interestForYear
    { year := if isPartialYear then time else (year : ℚ)
      principalAtStart := runningPrincipal
      interestForYear := interestForYear
      totalAtEnd := totalAtEnd }
      :: (if (year : ℤ) = ⌊time⌋ then []
          else compoundRowsAux rate time totalAtEnd (year + 1) fuel)

/-- `generateYearWiseBreakdown(principal, rate, time, interestType)` (lines 115-164):
`roundedTime = Math.ceil(time)` bounds the loop, which starts at `year = 1`. -/
noncomputable def generateYearWiseBreakdown (principal rate time : ℚ)
    (interestType : InterestType) : List YearRow :=
  let roundedTime := ⌈time⌉.toNat
  match interestType with
  | .simple => simpleRowsAux principal ((principal * rate) / 100) time 1 roundedTime
  | .compound => compoundRowsAux rate time (principal : ℝ) 1 roundedTime

/-- `validateInputs(principal, interestRate, timePeriod, interestType)` (lines
174-190), checks in source order; the enum membership check always passes for the
two-constructor `InterestType`. -/
def validateInputs (principal interestRate timePeriod : ℚ) (interestType : InterestType) :
    Except String Unit :=
  if principal = 0 ∨ principal ≤ 0 then
    .error "Principal amount must be greater than 0"
  else if interestRate < 0 ∨ interestRate > 100 then
    .error "Interest rate must be between 0 and 100"
  else if timePeriod = 0 ∨ timePeriod ≤ 0 ∨ timePeriod > 100 then
    .error "Time period must be between 0.1 and 100 years"
  else if interestType ≠ .simple ∧ interestType ≠ .compound then
    .error "Interest type must be \"simple\" or \"compound\""
  else
    .ok ()

/-- `calculateInterest(principal, interestRate, timePeriod, interestType)`
(lines 22-70): dispatch on the type, generate the breakdown, and round every
monetary output (the breakdown rows keep their unrounded `year` label). -/
noncomputable def calculateInterest (principal interestRate timePeriod : ℚ)
    (interestType : InterestType) : Except String InterestResult := do
  let _ ← validateInputs principal interestRate timePeriod interestType
  let result :=
    match interestType with
    | .simple => calculateSimpleInterest principal interestRate timePeriod
    | .compound => calculateCompoundInterest principal interestRate timePeriod
  let interestAmount := result.1
  let totalAmount := result.2
  let yearWiseBreakdown := generateYearWiseBreakdown principal interestRate timePeriod interestType
  let growthRate := (interestAmount / (principal : ℝ)) * 100
  return { principal := principal
           interestRate := interestRate
           timePeriod := timePeriod
           interestType := interestType
           interestAmount := round2R interestAmount
           totalAmount := round2R totalAmount
           growthRate := round2R growthRate
           yearWiseBreakdown := yearWiseBreakdown.map fun item =>
             { year := item.year
               principalAtStart := round2R item.principalAtStart
               interestForYear := round2R item.interestForYear
               totalAtEnd := round2R item.totalAtEnd } }

end Interest

/-- The non-zero-rate branch of the SIP future-value computation, as a function
of the monthly rate `r` (sipCalculatorController.js lines 74-78):
`PMT * ((1+r)^n - 1)/r * (1+r)`. -/
noncomputable def annuityDueFormula (monthlyPayment months r : ℝ) : ℝ :=
  monthlyPayment * (((1 + r) ^ months - 1) / r) * (1 + r)

/-- The non-zero-rate branch of the retirement-corpus future-value computation,
as a function of the monthly rate `r` (retirementCorpusCalculatorController.js
lines 79-82): `PMT * ((1+r)^n - 1)/r`. -/
noncomputable def ordinaryAnnuityFormula (monthlyPayment months r : ℝ) : ℝ :=
  monthlyPayment * (((1 + r) ^ months - 1) / r)

/-- The non-zero-rate branch of the reverse EMI computation, as a function of the
monthly rate `r` (part_004 lines 195-198): `EMI * ((1+r)^n - 1)/(r * (1+r)^n)`. -/
noncomputable def reverseEMIFormula (emi months r : ℝ) : ℝ :=
  emi * (((1 + r) ^ months - 1) / (r * (1 + r) ^ months))

/-- Adjacent-entry chaining of a year-wise breakdown: every entry's closing
balance is the next entry's opening balance. -/
def Interest.Chained (l : List Interest.YearRow) : Prop :=
  ∀ i : ℕ, i + 1 < l.length → (l.get? i).map Interest.YearRow.totalAtEnd =
    (l.get? (i + 1)).map Interest.YearRow.principalAtStart

/-! ## Helper lemmas -/

deriving instance DecidableEq for Except

theorem EMI.emi_validateInputs_ok {P R T : ℚ} (hP : 0 < P) (hR0 : 0 ≤ R) (hR100 : R ≤ 100)
    (hT : 0 < T) (hden : T.den = 1) : EMI.validateInputs P R T = .ok () := by
  unfold EMI.validateInputs
  rw [if_neg (by push_neg; exact ⟨hP.ne.symm, hP⟩),
    if_neg (by push_neg; exact ⟨hR0, hR100⟩),
    if_neg (by push_neg; exact ⟨hT.ne.symm, hT, hden⟩)]

theorem EMI.calculateEMI_ok {P R T : ℚ} (h : EMI.validateInputs P R T = .ok ()) :
    EMI.calculateEMI P R T = .ok
      { loanAmount := P
        interestRate := R
        tenureMonths := T
        monthlyEMI := round2 (EMI.monthlyEMIRaw P R T)
        totalInterest := round2 (EMI.monthlyEMIRaw P R T * T - P)
        totalPayable := round2 (EMI.monthlyEMIRaw P R T * T) } := by
  unfold EMI.calculateEMI
  rw [h]
  rfl

theorem EMI.monthlyEMIRaw_natCast (P R : ℚ) (N : ℕ) :
    EMI.monthlyEMIRaw P R (N : ℚ) =
      if R / 1200 = 0 then P / (N : ℚ)
      else P * (R / 1200) * (1 + R / 1200) ^ N / ((1 + R / 1200) ^ N - 1) := by
  unfold EMI.monthlyEMIRaw
  norm_num

/-! ## C1 -/

/-- **C1.** For loanAmount `P > 0`, interestRate `R ∈ [0,100]` and a positive
integer tenure `N`, `calculateEMI` returns the record whose `monthlyEMI` is
`P/N` when the monthly rate `r = R/1200` is 0 and `P*r*(1+r)^N / ((1+r)^N - 1)`
otherwise, and whose `totalPayable = monthlyEMI * N` and
`totalInterest = totalPayable - P` are computed from the *unrounded* EMI, all
three rounded to 2 decimals only at the final step.  Corrected concrete
scenario: `calculateEMI(100000, 10, 12)` yields `monthlyEMI = 8791.59`,
`totalInterest = 5499.06` and `totalPayable = 105499.06` (the spec's 5499.08 /
105499.08 would require multiplying the already-rounded EMI by 12, which the
code does not do). -/
theorem C1_calculateEMI_matches_annuity_formula :
    (∀ (P R : ℚ) (N : ℕ), 0 < P → 0 ≤ R → R ≤ 100 → 1 ≤ N →
      EMI.calculateEMI P R (N : ℚ) = .ok
        { loanAmount := P
          interestRate := R
          tenureMonths := (N : ℚ)
          monthlyEMI := round2 (if R / 1200 = 0 then P / (N : ℚ)
            else P * (R / 1200) * (1 + R / 1200) ^ N / ((1 + R / 1200) ^ N - 1))
          totalInterest := round2 ((if R / 1200 = 0 then P / (N : ℚ)
            else P * (R / 1200) * (1 + R / 1200) ^ N / ((1 + R / 1200) ^ N - 1)) * N - P)
          totalPayable := round2 ((if R / 1200 = 0 then P / (N : ℚ)
            else P * (R / 1200) * (1 + R / 1200) ^ N / ((1 + R / 1200) ^ N - 1)) * N) }) ∧
    EMI.calculateEMI 100000 10 12 = .ok
      { loanAmount := 100000
        interestRate := 10
        tenureMonths := 12
        monthlyEMI := 8791.59
        totalInterest := 5499.06
        totalPayable := 105499.06 } := by
  constructor
  · intro P R N hP hR0 hR100 hN
    have hT : (0 : ℚ) < (N : ℚ) := by
      exact_mod_cast Nat.lt_of_lt_of_le Nat.zero_lt_one hN
    rw [EMI.calculateEMI_ok (EMI.emi_validateInputs_ok hP hR0 hR100 hT (Rat.den_natCast N)),
      EMI.monthlyEMIRaw_natCast]
  · have hv : EMI.validateInputs 100000 10 12 = .ok () := by
      norm_num [EMI.validateInputs]
    rw [EMI.calculateEMI_ok hv]
    norm_num [EMI.monthlyEMIRaw, round2_eq_intFloor, show (12:ℤ).toNat = 12 from rfl, EMI.EMIResult.mk.injEq]

/-- **C1 counterexample.** The code's `calculateEMI(100000, 10, 12)` returns
`totalInterest = 5499.06` and `totalPayable = 105499.06`, not the claimed
`5499.08` / `105499.08`. -/
theorem C1_concrete_totals_counterexample :
    (EMI.calculateEMI 100000 10 12).map (fun res => res.totalInterest) = .ok 5499.06 ∧
    (EMI.calculateEMI 100000 10 12).map (fun res => res.totalPayable) = .ok 105499.06 ∧
    (5499.06 : ℚ) ≠ 5499.08 ∧ (105499.06 : ℚ) ≠ 105499.08 := by
  have hv : EMI.validateInputs 100000 10 12 = .ok () := by
    norm_num [EMI.validateInputs]
  rw [EMI.calculateEMI_ok hv]
  refine ⟨?_, ?_, by norm_num, by norm_num⟩ <;>
    norm_num [EMI.monthlyEMIRaw, round2_eq_intFloor, show (12:ℤ).toNat = 12 from rfl, Except.map]

/-! ## C4 -/

theorem tendsto_annuity_slope (n : ℝ) :
    Filter.Tendsto (fun r : ℝ => ((1 + r) ^ n - 1) / r)
      (nhdsWithin 0 {(0 : ℝ)}ᶜ) (nhds n) := by
  have h1 : HasDerivAt (fun x : ℝ => 1 + x) 1 0 := by
    simpa using (hasDerivAt_id (0 : ℝ)).const_add 1
  have h2 : HasDerivAt (fun y : ℝ => y ^ n) (n * (1 : ℝ) ^ (n - 1)) (1 + 0) := by
    have := Real.hasDerivAt_rpow_const (x := 1 + (0:ℝ)) (p := n) (Or.inl (by norm_num))
    simpa using this
  have hd : HasDerivAt (fun x : ℝ => (1 + x) ^ n) n 0 := by
    have := h2.comp 0 h1
    simpa [Real.one_rpow] using this
  rw [hasDerivAt_iff_tendsto_slope] at hd
  refine hd.congr fun y => ?_
  rw [slope_def_field]
  norm_num [Real.one_rpow]

theorem tendsto_one_add_self :
    Filter.Tendsto (fun r : ℝ => 1 + r) (nhdsWithin 0 {(0 : ℝ)}ᶜ) (nhds 1) := by
  have : Filter.Tendsto (fun r : ℝ => 1 + r) (nhds 0) (nhds 1) := by
    simpa using (continuous_const.add continuous_id).tendsto (0 : ℝ)
  exact this.mono_left nhdsWithin_le_nhds

/-- **C4.** Zero-rate degeneracy: with `rate = 0` each annuity helper returns the
plain product `M * n` — the SIP and retirement-corpus `calculateFutureValueOfAnnuity`
and the loan-eligibility `calculateLoanAmountFromEMI` all short-circuit their
`monthlyRate === 0` branch to `M * n`; and `M * n` is exactly the limit as the
monthly rate `r → 0` of the corresponding non-zero-rate formula (annuity-due,
ordinary annuity, reverse EMI), each of which is the `else` branch of the same
function. -/
theorem C4_zero_rate_degeneracy :
    (∀ M n : ℝ, SIP.calculateFutureValueOfAnnuity M 0 n = M * n) ∧
    (∀ M n : ℝ, Corpus.calculateFutureValueOfAnnuity M 0 n = M * n) ∧
    (∀ M n : ℝ, LoanEligibility.calculateLoanAmountFromEMI M 0 n = M * n) ∧
    (∀ M roi n : ℝ, roi / 12 / 100 ≠ 0 →
      SIP.calculateFutureValueOfAnnuity M roi n = annuityDueFormula M n (roi / 12 / 100)) ∧
    (∀ M roi n : ℝ, roi / 12 / 100 ≠ 0 →
      Corpus.calculateFutureValueOfAnnuity M roi n = ordinaryAnnuityFormula M n (roi / 12 / 100)) ∧
    (∀ M roi n : ℝ, roi / 12 / 100 ≠ 0 →
      LoanEligibility.calculateLoanAmountFromEMI M roi n = reverseEMIFormula M n (roi / 12 / 100)) ∧
    (∀ M n : ℝ, Filter.Tendsto (fun r => annuityDueFormula M n r)
      (nhdsWithin 0 {(0 : ℝ)}ᶜ) (nhds (M * n))) ∧
    (∀ M n : ℝ, Filter.Tendsto (fun r => ordinaryAnnuityFormula M n r)
      (nhdsWithin 0 {(0 : ℝ)}ᶜ) (nhds (M * n))) ∧
    (∀ M n : ℝ, Filter.Tendsto (fun r => reverseEMIFormula M n r)
      (nhdsWithin 0 {(0 : ℝ)}ᶜ) (nhds (M * n))) := by
  refine ⟨?_, ?_, ?_, ?_, ?_, ?_, ?_, ?_, ?_⟩
  · intro M n
    simp [SIP.calculateFutureValueOfAnnuity]
  · intro M n
    simp [Corpus.calculateFutureValueOfAnnuity]
  · intro M n
    simp [LoanEligibility.calculateLoanAmountFromEMI]
  · intro M roi n h
    rw [SIP.calculateFutureValueOfAnnuity, if_neg h, annuityDueFormula]
  · intro M roi n h
    rw [Corpus.calculateFutureValueOfAnnuity, if_neg h, ordinaryAnnuityFormula]
  · intro M roi n h
    rw [LoanEligibility.calculateLoanAmountFromEMI, if_neg h, reverseEMIFormula]
  · intro M n
    have h := ((tendsto_annuity_slope n).const_mul M).mul tendsto_one_add_self
    simpa [annuityDueFormula, mul_comm, mul_assoc, mul_left_comm] using h
  · intro M n
    have h := (tendsto_annuity_slope n).const_mul M
    simpa [ordinaryAnnuityFormula] using h
  · intro M n
    have hf : Filter.Tendsto (fun r : ℝ => (1 + r) ^ n)
        (nhdsWithin 0 {(0 : ℝ)}ᶜ) (nhds 1) := by
      have := tendsto_one_add_self.rpow_const (p := n) (Or.inl one_ne_zero)
      simpa [Real.one_rpow] using this
    have h : Filter.Tendsto (fun r : ℝ => M * ((((1 + r) ^ n - 1) / r) / (1 + r) ^ n))
        (nhdsWithin 0 {(0 : ℝ)}ᶜ) (nhds (M * (n / 1))) :=
      ((tendsto_annuity_slope n).div hf one_ne_zero).const_mul M
    have heq : ∀ y : ℝ, M * ((((1 + y) ^ n - 1) / y) / (1 + y) ^ n) = reverseEMIFormula M n y := by
      intro y
      rw [reverseEMIFormula, div_div]
    simpa using Filter.Tendsto.congr heq h

/-! ## C5 -/

/-- **C5.** Round-trip of the EMI formula and its inverse: for `P`, rate `R > 0`
and months `N ≥ 1`, feeding the unrounded EMI produced by the EMI annuity
formula (`monthlyEMIRaw`) back through `calculateLoanAmountFromEMI` at the same
rate and month count recovers the original principal exactly (the two formulas
are exact algebraic inverses in real arithmetic; floating point only adds
rounding noise). -/
theorem C5_reverse_emi_round_trip (P R : ℚ) (N : ℕ) (hR : 0 < R) (hN : 1 ≤ N) :
    LoanEligibility.calculateLoanAmountFromEMI
      ((EMI.monthlyEMIRaw P R (N : ℚ) : ℚ) : ℝ) (R : ℝ) ((N : ℕ) : ℝ) = (P : ℝ) := by
  have hRQ : (R : ℚ) / 1200 ≠ 0 := by positivity
  have hemi : EMI.monthlyEMIRaw P R (N : ℚ) =
      P * (R / 1200) * (1 + R / 1200) ^ N / ((1 + R / 1200) ^ N - 1) := by
    rw [EMI.monthlyEMIRaw_natCast, if_neg hRQ]
  have hrR : (0 : ℝ) < (R : ℝ) / 12 / 100 := by positivity
  have hrne : ((R : ℝ) / 12 / 100) ≠ 0 := hrR.ne.symm
  unfold LoanEligibility.calculateLoanAmountFromEMI
  rw [if_neg hrne]
  rw [Real.rpow_natCast]
  set r : ℝ := (R : ℝ) / 12 / 100 with hr
  have hf1 : 1 < (1 + r) ^ N :=
    one_lt_pow₀ (by linarith) (Nat.one_le_iff_ne_zero.mp hN)
  have hfne : (1 + r) ^ N - 1 ≠ 0 := by linarith
  have hfne0 : ((1 + r) ^ N : ℝ) ≠ 0 := by positivity
  have hcast : ((EMI.monthlyEMIRaw P R (N : ℚ) : ℚ) : ℝ) =
      (P : ℝ) * r * (1 + r) ^ N / ((1 + r) ^ N - 1) := by
    rw [hemi]
    push_cast
    ring_nf
  rw [hcast]
  field_simp
  ring

theorem C5_reverse_emi_round_trip_witness :
    LoanEligibility.calculateLoanAmountFromEMI
      ((EMI.monthlyEMIRaw (100000 : ℚ) (10 : ℚ) ((12 : ℕ) : ℚ) : ℚ) : ℝ)
      (((10 : ℚ)) : ℝ) (((12 : ℕ)) : ℝ) = (((100000 : ℚ)) : ℝ) :=
  C5_reverse_emi_round_trip 100000 10 12 (by norm_num) (by norm_num)


/-! ## C6 -/

theorem EMI.amortBalance_shift (b r E : ℚ) : ∀ i : ℕ,
    EMI.amortBalance b r E (i + 1) = EMI.amortBalance (b - (E - b * r)) r E i
  | 0 => rfl
  | i + 1 => by
    show EMI.amortBalance b r E (i + 1) - (E - EMI.amortBalance b r E (i + 1) * r) = _
    rw [EMI.amortBalance_shift b r E i]
    rfl

theorem EMI.amortAux_eq_map (r E : ℚ) : ∀ (rem : ℕ) (b : ℚ) (m : ℕ),
    EMI.amortAux r E b m rem = (List.range rem).map (fun i =>
      { month := m + i
        principal := round2 (E - EMI.amortBalance b r E i * r)
        interest := round2 (EMI.amortBalance b r E i * r)
        balance := max 0 (round2 (EMI.amortBalance b r E (i + 1))) })
  | 0, b, m => rfl
  | rem + 1, b, m => by
    rw [List.range_succ_eq_map, List.map_cons, List.map_map]
    show _ :: EMI.amortAux r E (b - (E - b * r)) (m + 1) rem = _
    rw [EMI.amortAux_eq_map r E rem (b - (E - b * r)) (m + 1)]
    congr 1
    refine List.map_congr_left fun i _ => ?_
    simp only [Function.comp_apply, EMI.AmortEntry.mk.injEq,
      ← EMI.amortBalance_shift b r E i, ← EMI.amortBalance_shift b r E (i + 1)]
    repeat' constructor
    all_goals omega

theorem EMI.sum_principal_telescope (P r E : ℚ) : ∀ N : ℕ,
    (∑ i in Finset.range N, (E - EMI.amortBalance P r E i * r)) =
      P - EMI.amortBalance P r E N
  | 0 => by simp [EMI.amortBalance]
  | N + 1 => by
    rw [Finset.sum_range_succ, EMI.sum_principal_telescope P r E N]
    show _ = P - (EMI.amortBalance P r E N - (E - EMI.amortBalance P r E N * r))
    ring

theorem EMI.amortBalance_mul_rate (P r E : ℚ) : ∀ i : ℕ,
    EMI.amortBalance P r E i * r = P * (1 + r) ^ i * r - E * ((1 + r) ^ i - 1)
  | 0 => by
    show P * r = _
    ring
  | i + 1 => by
    show (EMI.amortBalance P r E i - (E - EMI.amortBalance P r E i * r)) * r = _
    have h : EMI.amortBalance P r E i * r =
        P * (1 + r) ^ i * r - E * ((1 + r) ^ i - 1) := EMI.amortBalance_mul_rate P r E i
    have h2 : (EMI.amortBalance P r E i - (E - EMI.amortBalance P r E i * r)) * r =
        (EMI.amortBalance P r E i * r) * (1 + r) - E * r := by ring
    rw [h2, h]
    ring

theorem listSum_map_range (f : ℕ → ℚ) : ∀ N : ℕ,
    ((List.range N).map f).sum = ∑ i in Finset.range N, f i
  | 0 => by simp
  | N + 1 => by
    rw [List.range_succ, List.map_append, List.sum_append, Finset.sum_range_succ,
      listSum_map_range f N]
    simp

theorem sum_round2_range_close (f : ℕ → ℚ) : ∀ N : ℕ,
    |(∑ i in Finset.range N, round2 (f i)) - ∑ i in Finset.range N, f i| ≤ (N : ℚ) / 200
  | 0 => by simp
  | N + 1 => by
    rw [Finset.sum_range_succ, Finset.sum_range_succ]
    have h1 := sum_round2_range_close f N
    have h2 := abs_round2_sub_le (f N)
    have h3 : (∑ i in Finset.range N, round2 (f i)) + round2 (f N) -
        ((∑ i in Finset.range N, f i) + f N) =
        ((∑ i in Finset.range N, round2 (f i)) - ∑ i in Finset.range N, f i) +
          (round2 (f N) - f N) := by ring
    rw [h3]
    calc |_ + _| ≤ _ + _ := abs_add _ _
    _ ≤ (N : ℚ) / 200 + 1 / 200 := add_le_add h1 h2
    _ = ((N : ℚ) + 1) / 200 := by ring
    _ = ((N + 1 : ℕ) : ℚ) / 200 := by push_cast; ring

/-- **C6.** For every `(P, R, N)` and EMI value `E`, the amortization schedule is
exactly the list of months `1..N` whose unrounded interest component is the
running balance times the monthly rate and whose principal component is
`E - interest` (entries store them rounded to 2 decimals); every reported
balance is clamped to `≥ 0`; the unrounded principal components telescope to
`P` minus the final unrounded balance, so the reported principal sum is within
`N × 0.01` of `P - finalBalance`; and when `E` is the *exact* (unrounded)
annuity EMI and `R > 0` the final unrounded balance is exactly 0.  (With the
*rounded* `monthlyEMI` from `calculateEMI` the final balance is merely clamped
to `≥ 0` and the principal sum can drift from `P` by more than `N × 0.01`; see
the counterexample.) -/
theorem C6_generateAmortizationSchedule_properties (P R E : ℚ) (N : ℕ) :
    (EMI.generateAmortizationSchedule P R N E = (List.range N).map (fun i =>
      { month := 1 + i
        principal := round2 (E - EMI.amortBalance P (R / (12 * 100)) E i * (R / (12 * 100)))
        interest := round2 (EMI.amortBalance P (R / (12 * 100)) E i * (R / (12 * 100)))
        balance := max 0 (round2 (EMI.amortBalance P (R / (12 * 100)) E (i + 1))) })) ∧
    (∀ e ∈ EMI.generateAmortizationSchedule P R N E, 0 ≤ e.balance) ∧
    ((∑ i in Finset.range N, (E - EMI.amortBalance P (R / (12 * 100)) E i * (R / (12 * 100)))) =
      P - EMI.amortBalance P (R / (12 * 100)) E N) ∧
    (|((EMI.generateAmortizationSchedule P R N E).map (fun e => e.principal)).sum -
      (P - EMI.amortBalance P (R / (12 * 100)) E N)| ≤ (N : ℚ) / 100) ∧
    (0 < R → 1 ≤ N → E = EMI.monthlyEMIRaw P R (N : ℚ) →
      EMI.amortBalance P (R / (12 * 100)) E N = 0) := by
  have hcl : EMI.generateAmortizationSchedule P R N E = (List.range N).map (fun i =>
      { month := 1 + i
        principal := round2 (E - EMI.amortBalance P (R / (12 * 100)) E i * (R / (12 * 100)))
        interest := round2 (EMI.amortBalance P (R / (12 * 100)) E i * (R / (12 * 100)))
        balance := max 0 (round2 (EMI.amortBalance P (R / (12 * 100)) E (i + 1))) }) :=
    EMI.amortAux_eq_map (R / (12 * 100)) E N P 1
  refine ⟨hcl, ?_, EMI.sum_principal_telescope P (R / (12 * 100)) E N, ?_, ?_⟩
  · rw [hcl]
    intro e he
    rw [List.mem_map] at he
    obtain ⟨i, _, rfl⟩ := he
    exact le_max_left 0 _
  · rw [hcl, List.map_map]
    have hmap : ((fun e : EMI.AmortEntry => e.principal) ∘ (fun i =>
        ({ month := 1 + i
           principal := round2 (E - EMI.amortBalance P (R / (12 * 100)) E i * (R / (12 * 100)))
           interest := round2 (EMI.amortBalance P (R / (12 * 100)) E i * (R / (12 * 100)))
           balance := max 0 (round2 (EMI.amortBalance P (R / (12 * 100)) E (i + 1))) } :
             EMI.AmortEntry))) = fun i =>
        round2 (E - EMI.amortBalance P (R / (12 * 100)) E i * (R / (12 * 100))) := rfl
    rw [hmap, listSum_map_range, ← EMI.sum_principal_telescope P (R / (12 * 100)) E N]
    have h := sum_round2_range_close
      (fun i => E - EMI.amortBalance P (R / (12 * 100)) E i * (R / (12 * 100))) N
    have hN : (0 : ℚ) ≤ (N : ℚ) := Nat.cast_nonneg N
    calc |_| ≤ (N : ℚ) / 200 := h
    _ ≤ (N : ℚ) / 100 := by linarith
  · intro hR hN hE
    have hr : (0 : ℚ) < R / (12 * 100) := by positivity
    have hrw : R / (12 * 100) = R / 1200 := by norm_num
    have hf1 : 1 < (1 + R / 1200) ^ N :=
      one_lt_pow₀ (by nlinarith) (Nat.one_le_iff_ne_zero.mp hN)
    have hfne : (1 + R / 1200) ^ N - 1 ≠ 0 := by linarith
    have hEval : E = P * (R / 1200) * (1 + R / 1200) ^ N / ((1 + R / 1200) ^ N - 1) := by
      rw [hE, EMI.monthlyEMIRaw_natCast, if_neg (by positivity : ¬ R / 1200 = 0)]
    have hkey := EMI.amortBalance_mul_rate P (R / (12 * 100)) E N
    rw [hrw] at hkey hr
    have hzero : EMI.amortBalance P (R / 1200) E N * (R / 1200) = 0 := by
      rw [hkey, hEval, div_mul_cancel₀ _ hfne]
      ring
    rw [hrw]
    rcases mul_eq_zero.mp hzero with h | h
    · exact h
    · exact absurd h hr.ne.symm

set_option maxHeartbeats 4000000 in
/-- **C6 counterexample.** With `P = 50000`, `R = 100`, `N = 60` and the rounded
`monthlyEMI = 4201.15` returned by `calculateEMI`, the schedule's reported
principal components sum to `P - 3.79`, outside the claimed `±(N × 0.01) = ±0.60`
tolerance, and the final (60th) month's reported balance is `3.78`, not `0`. -/
theorem C6_counterexample_sum_and_final_balance :
    (EMI.calculateEMI 50000 100 60).map (fun res => res.monthlyEMI) = .ok 4201.15 ∧
    ¬ (|((EMI.generateAmortizationSchedule 50000 100 60 (4201.15 : ℚ)).map
        (fun e => e.principal)).sum - 50000| ≤ 60 / 100) ∧
    (EMI.generateAmortizationSchedule 50000 100 60 (4201.15 : ℚ)).length = 60 ∧
    ((EMI.generateAmortizationSchedule 50000 100 60 (4201.15 : ℚ)).get? 59).map
      (fun e => e.balance) = some (3.78 : ℚ) ∧
    (3.78 : ℚ) ≠ 0 := by
  have hcl : EMI.generateAmortizationSchedule 50000 100 60 (4201.15 : ℚ) =
      (List.range 60).map (fun i =>
        { month := 1 + i
          principal := round2 ((4201.15 : ℚ) -
            EMI.amortBalance 50000 (100 / (12 * 100)) (4201.15 : ℚ) i * (100 / (12 * 100)))
          interest := round2
            (EMI.amortBalance 50000 (100 / (12 * 100)) (4201.15 : ℚ) i * (100 / (12 * 100)))
          balance := max 0 (round2
            (EMI.amortBalance 50000 (100 / (12 * 100)) (4201.15 : ℚ) (i + 1))) }) :=
    EMI.amortAux_eq_map (100 / (12 * 100)) (4201.15 : ℚ) 60 50000 1
  rw [hcl]
  refine ⟨?_, ?_, ?_, ?_, by norm_num⟩
  · have hv : EMI.validateInputs 50000 100 60 = .ok () := by
      norm_num [EMI.validateInputs]
    rw [EMI.calculateEMI_ok hv]
    norm_num [EMI.monthlyEMIRaw, round2_eq_intFloor, show (60 : ℤ).toNat = 60 from rfl,
      Except.map]
  · norm_num [EMI.amortBalance, round2, Rat.floor_def', List.range_succ]
    rw [abs_of_pos]
    all_goals norm_num
  · norm_num [List.range_succ]
  · norm_num [EMI.amortBalance, round2, Rat.floor_def', List.range_succ, List.get?]

/-! ## C7 -/

theorem FD.fd_validateInputs_ok {P R t : ℚ} (hP : 1000 ≤ P) (hR1 : 1 ≤ R) (hR15 : R ≤ 15)
    (ht0 : 0 < t) (ht10 : t ≤ 10) : FD.validateInputs P R t = .ok () := by
  unfold FD.validateInputs
  rw [if_neg (by push_neg; exact ⟨by positivity, not_lt.mp (by linarith)⟩),
    if_neg (by push_neg; exact ⟨by positivity, hR1, hR15⟩),
    if_neg (by push_neg; exact ⟨ht0.ne.symm, ht0, ht10⟩)]

theorem FD.calculateFD_ok {P R t : ℚ} (h : FD.validateInputs P R t = .ok ()) :
    FD.calculateFD P R t = .ok
      { principal := P
        interestRate := R
        tenure := t
        compoundingFrequency := 4
        maturityAmount := round2R (FD.calculateMaturityAmount (P : ℝ) (R : ℝ) (t : ℝ) 4)
        totalInterestEarned :=
          round2R (FD.calculateMaturityAmount (P : ℝ) (R : ℝ) (t : ℝ) 4 - (P : ℝ))
        effectiveRate := round2R (FD.calculateEffectiveRate (R : ℝ) 4) } := by
  unfold FD.calculateFD
  rw [h]
  rfl

/-- **C7.** The FD calculator uses fixed quarterly compounding (`n = 4`): for every
input passing validation, `calculateFD` reports `compoundingFrequency = 4`,
`maturityAmount = round2 (P * (1 + R/100/4) ^ (4 * t))` and
`effectiveRate = round2 (((1 + R/100/4) ^ 4 - 1) * 100)`; and for any `R > 0` the
unrounded effective annual rate is at least the nominal annual rate `R`. -/
theorem C7_fd_quarterly_compounding_and_ear_monotonicity :
    (∀ (P R t : ℚ), 1000 ≤ P → 1 ≤ R → R ≤ 15 → 0 < t → t ≤ 10 →
      FD.calculateFD P R t = .ok
        { principal := P
          interestRate := R
          tenure := t
          compoundingFrequency := 4
          maturityAmount := round2R ((P : ℝ) * (1 + (R : ℝ) / 100 / 4) ^ ((4 : ℝ) * (t : ℝ)))
          totalInterestEarned :=
            round2R ((P : ℝ) * (1 + (R : ℝ) / 100 / 4) ^ ((4 : ℝ) * (t : ℝ)) - (P : ℝ))
          effectiveRate := round2R (((1 + (R : ℝ) / 100 / 4) ^ (4 : ℕ) - 1) * 100) }) ∧
    (∀ R : ℝ, 0 < R → R ≤ FD.calculateEffectiveRate R 4) := by
  constructor
  · intro P R t hP hR1 hR15 ht0 ht10
    rw [FD.calculateFD_ok (FD.fd_validateInputs_ok hP hR1 hR15 ht0 ht10)]
    have hm : FD.calculateMaturityAmount (P : ℝ) (R : ℝ) (t : ℝ) 4 =
        (P : ℝ) * (1 + (R : ℝ) / 100 / 4) ^ ((4 : ℝ) * (t : ℝ)) := by
      unfold FD.calculateMaturityAmount
      norm_num
    have he : FD.calculateEffectiveRate (R : ℝ) 4 =
        ((1 + (R : ℝ) / 100 / 4) ^ (4 : ℕ) - 1) * 100 := by
      unfold FD.calculateEffectiveRate
      norm_num
    rw [hm, he]
  · intro R hR
    unfold FD.calculateEffectiveRate
    have h4 : ((4 : ℕ) : ℝ) = (4 : ℝ) := by norm_num
    rw [h4]
    have hb : 1 + (4 : ℕ) * (R / 100 / 4) ≤ (1 + R / 100 / 4) ^ (4 : ℕ) :=
      one_add_mul_le_pow (by nlinarith) 4
    have : (1 + R / 100 / 4) ^ (4 : ℕ) - 1 ≥ R / 100 := by
      push_cast at hb
      nlinarith
    nlinarith

/-! ## C8 -/

theorem LoanEligibility.calculateLoanEligibility_error {mi emi ir lt : ℚ} {msg : String}
    (h : LoanEligibility.validateInputs mi emi ir lt = .error msg) :
    LoanEligibility.calculateLoanEligibility mi emi ir lt = .error msg := by
  unfold LoanEligibility.calculateLoanEligibility
  rw [h]
  rfl

theorem LoanEligibility.calculateLoanEligibility_ok {mi emi ir lt : ℚ}
    (h : LoanEligibility.validateInputs mi emi ir lt = .ok ()) :
    ∃ res, LoanEligibility.calculateLoanEligibility mi emi ir lt = .ok res := by
  unfold LoanEligibility.calculateLoanEligibility
  rw [h]
  exact ⟨_, rfl⟩

/-- **C8.** The debt-to-income policy is enforced as a validation error before any
computation: whenever `emiCapacity ≥ monthlyIncome` or
`emiCapacity > 80% of monthlyIncome`, `calculateLoanEligibility` returns a
validation error and no computed result; and when both policy constraints and
all range checks hold, no error is raised and a result record is returned. -/
theorem C8_loan_eligibility_dti_policy (mi emi ir lt : ℚ) :
    ((mi ≤ emi ∨ mi * (8 / 10) < emi) →
      ∃ msg, LoanEligibility.calculateLoanEligibility mi emi ir lt = .error msg) ∧
    (10000 ≤ mi → 1000 ≤ emi → emi < mi → emi ≤ mi * (8 / 10) →
      1 ≤ ir → ir ≤ 30 → 1 ≤ lt → lt ≤ 30 →
      ∃ res, LoanEligibility.calculateLoanEligibility mi emi ir lt = .ok res) := by
  constructor
  · intro h
    by_cases h1 : mi = 0 ∨ mi < 10000
    · exact ⟨_, LoanEligibility.calculateLoanEligibility_error
        (by unfold LoanEligibility.validateInputs; rw [if_pos h1])⟩
    · by_cases h2 : emi = 0 ∨ emi < 1000
      · exact ⟨_, LoanEligibility.calculateLoanEligibility_error
          (by unfold LoanEligibility.validateInputs; rw [if_neg h1, if_pos h2])⟩
      · by_cases h3 : emi ≥ mi
        · exact ⟨_, LoanEligibility.calculateLoanEligibility_error
            (by unfold LoanEligibility.validateInputs; rw [if_neg h1, if_neg h2, if_pos h3])⟩
        · have h4 : emi > mi * (8 / 10) := by
            rcases h with h | h
            · exact absurd h h3
            · exact h
          exact ⟨_, LoanEligibility.calculateLoanEligibility_error
            (by unfold LoanEligibility.validateInputs
                rw [if_neg h1, if_neg h2, if_neg h3, if_pos h4])⟩
  · intro hmi hemi hlt80 hle80 hir1 hir30 hlt1 hlt30
    refine LoanEligibility.calculateLoanEligibility_ok ?_
    unfold LoanEligibility.validateInputs
    rw [if_neg (by push_neg; exact ⟨by positivity, not_lt.mp (by linarith)⟩),
      if_neg (by push_neg; exact ⟨by positivity, not_lt.mp (by linarith)⟩),
      if_neg (not_le.mpr hlt80), if_neg (not_lt.mpr hle80),
      if_neg (by push_neg; exact ⟨by positivity, hir1, hir30⟩),
      if_neg (by push_neg; exact ⟨by positivity, hlt1, hlt30⟩)]

/-! ## C9 -/

theorem SIP.calculateSIP_error {m p roi : ℚ} {msg : String}
    (h : SIP.validateInputs m p roi = .error msg) :
    SIP.calculateSIP m p roi = .error msg := by
  unfold SIP.calculateSIP
  rw [h]
  rfl

theorem Corpus.calculateCorpus_error {ca ra ms roi : ℚ} {msg : String}
    (h : Corpus.validateInputs ca ra ms roi = .error msg) :
    Corpus.calculateCorpus ca ra ms roi = .error msg := by
  unfold Corpus.calculateCorpus
  rw [h]
  rfl

/-- **C9.** A zero rate is rejected at validation by all three top-level annuity
calculators: with the other inputs in range, `calculateSIP _ _ 0` throws
"Expected ROI must be between 1% and 20%", `calculateCorpus _ _ _ 0` throws the
same message, and `calculateLoanEligibility _ _ 0 _` throws "Interest rate must
be between 1% and 30%"; consequently whenever the SIP validation passes the
monthly rate is non-zero, so the `monthlyRate === 0` branch of
`calculateFutureValueOfAnnuity` is unreachable through `calculateSIP` and can
only be exercised by calling the helper directly. -/
theorem C9_zero_roi_rejected_at_validation :
    (∀ m p : ℚ, 500 ≤ m → 1 ≤ p → p ≤ 50 →
      SIP.calculateSIP m p 0 = .error "Expected ROI must be between 1% and 20%") ∧
    (∀ ca ra ms : ℚ, 18 ≤ ca → ca ≤ 100 → 40 ≤ ra → ra ≤ 100 → ca < ra → 0 < ms →
      Corpus.calculateCorpus ca ra ms 0 =
        .error "Expected ROI must be between 1% and 20%") ∧
    (∀ mi emi lt : ℚ, 10000 ≤ mi → 1000 ≤ emi → emi < mi → emi ≤ mi * (8 / 10) →
      1 ≤ lt → lt ≤ 30 →
      LoanEligibility.calculateLoanEligibility mi emi 0 lt =
        .error "Interest rate must be between 1% and 30%") ∧
    (∀ m p roi : ℚ, SIP.validateInputs m p roi = .ok () → ((roi : ℝ) / 12 / 100) ≠ 0) := by
  refine ⟨?_, ?_, ?_, ?_⟩
  · intro m p hm hp1 hp50
    refine SIP.calculateSIP_error ?_
    unfold SIP.validateInputs
    rw [if_neg (by push_neg; exact ⟨by positivity, not_lt.mp (by linarith)⟩),
      if_neg (by push_neg; exact ⟨by positivity, hp1, hp50⟩),
      if_pos (Or.inl rfl)]
  · intro ca ra ms hca1 hca2 hra1 hra2 hcr hms
    refine Corpus.calculateCorpus_error ?_
    unfold Corpus.validateInputs
    rw [if_neg (by push_neg; exact ⟨by positivity, by linarith, hca2⟩),
      if_neg (by push_neg; exact ⟨by positivity, by linarith, hra2⟩),
      if_neg (not_le.mpr hcr), if_neg (by push_neg; exact ⟨hms.ne.symm, hms⟩),
      if_pos (Or.inl rfl)]
  · intro mi emi lt hmi hemi hlt80 hle80 hlt1 hlt30
    refine LoanEligibility.calculateLoanEligibility_error ?_
    unfold LoanEligibility.validateInputs
    rw [if_neg (by push_neg; exact ⟨by positivity, not_lt.mp (by linarith)⟩),
      if_neg (by push_neg; exact ⟨by positivity, not_lt.mp (by linarith)⟩),
      if_neg (not_le.mpr hlt80), if_neg (not_lt.mpr hle80),
      if_pos (Or.inl rfl)]
  · intro m p roi hval
    unfold SIP.validateInputs at hval
    split_ifs at hval with h1 h2 h3
    push_neg at h3
    have hroi : 1 ≤ roi := h3.2.1
    have : (0 : ℝ) < (roi : ℝ) / 12 / 100 := by
      have : (0 : ℚ) < roi := by linarith
      have hc : (0 : ℝ) < (roi : ℝ) := by exact_mod_cast this
      positivity
    exact this.ne.symm

/-! ## C10 -/

theorem Corpus.corpus_validateInputs_ok {ca ra ms roi : ℚ} (hca1 : 18 ≤ ca) (hca2 : ca ≤ 100)
    (hra1 : 40 ≤ ra) (hra2 : ra ≤ 100) (hcr : ca < ra) (hms : 0 < ms)
    (hroi1 : 1 ≤ roi) (hroi2 : roi ≤ 20) :
    Corpus.validateInputs ca ra ms roi = .ok () := by
  unfold Corpus.validateInputs
  rw [if_neg (by push_neg; exact ⟨by positivity, by linarith, hca2⟩),
    if_neg (by push_neg; exact ⟨by positivity, by linarith, hra2⟩),
    if_neg (not_le.mpr hcr), if_neg (by push_neg; exact ⟨hms.ne.symm, hms⟩),
    if_neg (by push_neg; exact ⟨by positivity, hroi1, hroi2⟩)]

/-- **C10.** For every input passing validation, `calculateCorpus` returns a
`monthlyPensionEstimate` equal to the unrounded retirement corpus divided by
`20 * 12 = 240` — a hard-coded assumption of 20 years of retirement at 12 months
per year — rounded to 2 decimals at the final step. -/
theorem C10_monthly_pension_estimate (ca ra ms roi : ℚ)
    (hca1 : 18 ≤ ca) (hca2 : ca ≤ 100) (hra1 : 40 ≤ ra) (hra2 : ra ≤ 100)
    (hcr : ca < ra) (hms : 0 < ms) (hroi1 : 1 ≤ roi) (hroi2 : roi ≤ 20) :
    (Corpus.calculateCorpus ca ra ms roi).map (fun res => res.monthlyPensionEstimate) =
      .ok (round2R (Corpus.calculateFutureValueOfAnnuity (ms : ℝ) (roi : ℝ)
        (((ra - ca) * 12 : ℚ) : ℝ) / (20 * 12))) := by
  unfold Corpus.calculateCorpus
  rw [Corpus.corpus_validateInputs_ok hca1 hca2 hra1 hra2 hcr hms hroi1 hroi2]
  rfl

theorem C10_monthly_pension_estimate_witness :
    (Corpus.calculateCorpus 30 60 5000 12).map (fun res => res.monthlyPensionEstimate) =
      .ok (round2R (Corpus.calculateFutureValueOfAnnuity ((5000 : ℚ) : ℝ) ((12 : ℚ) : ℝ)
        ((((60 : ℚ) - 30) * 12 : ℚ) : ℝ) / (20 * 12))) :=
  C10_monthly_pension_estimate 30 60 5000 12 (by norm_num) (by norm_num) (by norm_num)
    (by norm_num) (by norm_num) (by norm_num) (by norm_num) (by norm_num)

/-! ## C2 and C3: the breakdown loop -/

theorem Interest.simpleRowsAux_eq (P yI t : ℚ) (K : ℕ) (hK : (K : ℤ) = ⌊t⌋)
    (hKt : (K : ℚ) ≤ t) : ∀ (f y : ℕ), 1 ≤ y → y ≤ K → K - y < f →
    Interest.simpleRowsAux P yI t y f = (List.range (K + 1 - y)).map (fun i =>
      { year := ((y + i : ℕ) : ℚ)
        principalAtStart := (P : ℝ)
        interestForYear := (yI : ℝ)
        totalAtEnd := ((P + yI * (y + i : ℕ) : ℚ) : ℝ) })
  | 0 => by
    intro y _ h2 h3
    exact absurd h3 (by omega)
  | f + 1 => by
    intro y h1 h2 h3
    have hyQ : ((y : ℚ)) ≤ (K : ℚ) := by exact_mod_cast h2
    have hyt : ¬((y : ℚ) > t) := not_lt.mpr (le_trans hyQ hKt)
    simp only [Interest.simpleRowsAux, if_neg hyt]
    by_cases hyK : y = K
    · subst hyK
      rw [if_pos hK]
      rw [show y + 1 - y = 1 by omega]
      simp [List.range_succ]
    · rw [if_neg (show ¬((y : ℤ) = ⌊t⌋) from by rw [← hK]; exact_mod_cast hyK)]
      rw [Interest.simpleRowsAux_eq P yI t K hK hKt f (y + 1) (by omega) (by omega) (by omega)]
      rw [show K + 1 - y = (K - y) + 1 by omega, List.range_succ_eq_map, List.map_cons,
        List.map_map, show K + 1 - (y + 1) = K - y by omega]
      congr 1
      refine List.map_congr_left fun i _ => ?_
      simp only [Function.comp_apply, Interest.YearRow.mk.injEq,
        show y + 1 + i = y + (i + 1) from by omega]

theorem Interest.compoundRowsAux_eq (R t : ℚ) (K : ℕ) (hK : (K : ℤ) = ⌊t⌋)
    (hKt : (K : ℚ) ≤ t) : ∀ (f y : ℕ) (running : ℝ), 1 ≤ y → y ≤ K → K - y < f →
    Interest.compoundRowsAux R t running y f = (List.range (K + 1 - y)).map (fun i =>
      { year := ((y + i : ℕ) : ℚ)
        principalAtStart := running * (1 + (R : ℝ) / 100) ^ i
        interestForYear := running * (1 + (R : ℝ) / 100) ^ i * ((1 + (R : ℝ) / 100) - 1)
        totalAtEnd := running * (1 + (R : ℝ) / 100) ^ (i + 1) })
  | 0 => by
    intro y running _ h2 h3
    exact absurd h3 (by omega)
  | f + 1 => by
    intro y running h1 h2 h3
    have hyQ : ((y : ℚ)) ≤ (K : ℚ) := by exact_mod_cast h2
    have hyt : ¬((y : ℚ) > t) := not_lt.mpr (le_trans hyQ hKt)
    simp only [Interest.compoundRowsAux, if_neg hyt]
    have harg : running + running * ((1 + (R : ℝ) / 100) ^ (((1 : ℚ) : ℚ) : ℝ) - 1) =
        running * (1 + (R : ℝ) / 100) := by
      rw [Rat.cast_one, Real.rpow_one]
      ring
    by_cases hyK : y = K
    · subst hyK
      rw [if_pos hK, show y + 1 - y = 1 by omega]
      simp only [List.range_succ, List.range_zero, List.nil_append, List.map_cons,
        List.map_nil, List.cons.injEq, and_true, Interest.YearRow.mk.injEq, Nat.add_zero,
        Rat.cast_one, Real.rpow_one, pow_zero, pow_one, mul_one]
      repeat' constructor
      all_goals first | trivial | ring
    · rw [if_neg (show ¬((y : ℤ) = ⌊t⌋) from by rw [← hK]; exact_mod_cast hyK)]
      rw [harg]
      rw [Interest.compoundRowsAux_eq R t K hK hKt f (y + 1) (running * (1 + (R : ℝ) / 100))
        (by omega) (by omega) (by omega)]
      rw [show K + 1 - y = (K - y) + 1 by omega, List.range_succ_eq_map, List.map_cons,
        List.map_map, show K + 1 - (y + 1) = K - y by omega]
      congr 1
      · simp only [Interest.YearRow.mk.injEq, Nat.add_zero, Rat.cast_one, Real.rpow_one,
          pow_zero, pow_one, mul_one]
        repeat' constructor
        all_goals first | trivial | ring
      · refine List.map_congr_left fun i _ => ?_
        simp only [Function.comp_apply, Interest.YearRow.mk.injEq, Nat.succ_eq_add_one,
          show y + 1 + i = y + (i + 1) from by omega]
        repeat' constructor
        all_goals first | trivial | ring

theorem Interest.floor_facts {t : ℚ} (ht : 1 ≤ t) :
    ((⌊t⌋.toNat : ℤ) = ⌊t⌋) ∧ ((⌊t⌋.toNat : ℚ) ≤ t) ∧ 1 ≤ ⌊t⌋.toNat ∧
      ⌊t⌋.toNat - 1 < ⌈t⌉.toNat := by
  have h1 : (1 : ℤ) ≤ ⌊t⌋ := by
    rw [Int.le_floor]
    exact_mod_cast ht
  have h0 : (0 : ℤ) ≤ ⌊t⌋ := by omega
  have hK : ((⌊t⌋.toNat : ℤ) = ⌊t⌋) := Int.toNat_of_nonneg h0
  refine ⟨hK, ?_, ?_, ?_⟩
  · have hc : ((⌊t⌋.toNat : ℚ)) = ((⌊t⌋ : ℤ) : ℚ) := by exact_mod_cast hK
    rw [hc]
    exact Int.floor_le t
  · omega
  · have hc : ⌊t⌋ ≤ ⌈t⌉ := Int.floor_le_ceil t
    have : 1 ≤ ⌈t⌉ := le_trans h1 hc
    omega

theorem Interest.generateYearWiseBreakdown_simple_eq (P R t : ℚ) (ht : 1 ≤ t) :
    Interest.generateYearWiseBreakdown P R t .simple = (List.range ⌊t⌋.toNat).map (fun i =>
      { year := ((i + 1 : ℕ) : ℚ)
        principalAtStart := (P : ℝ)
        interestForYear := (((P * R) / 100 : ℚ) : ℝ)
        totalAtEnd := ((P + ((P * R) / 100) * (i + 1 : ℕ) : ℚ) : ℝ) }) := by
  obtain ⟨hK, hKt, hK1, hfuel⟩ := Interest.floor_facts ht
  show Interest.simpleRowsAux P ((P * R) / 100) t 1 ⌈t⌉.toNat = _
  rw [Interest.simpleRowsAux_eq P ((P * R) / 100) t ⌊t⌋.toNat hK hKt ⌈t⌉.toNat 1
    le_rfl hK1 hfuel]
  rw [show ⌊t⌋.toNat + 1 - 1 = ⌊t⌋.toNat by omega]
  refine List.map_congr_left fun i _ => ?_
  simp only [Interest.YearRow.mk.injEq, show 1 + i = i + 1 from by omega]

theorem Interest.generateYearWiseBreakdown_compound_eq (P R t : ℚ) (ht : 1 ≤ t) :
    Interest.generateYearWiseBreakdown P R t .compound = (List.range ⌊t⌋.toNat).map (fun i =>
      { year := ((i + 1 : ℕ) : ℚ)
        principalAtStart := (P : ℝ) * (1 + (R : ℝ) / 100) ^ i
        interestForYear := (P : ℝ) * (1 + (R : ℝ) / 100) ^ i * ((1 + (R : ℝ) / 100) - 1)
        totalAtEnd := (P : ℝ) * (1 + (R : ℝ) / 100) ^ (i + 1) }) := by
  obtain ⟨hK, hKt, hK1, hfuel⟩ := Interest.floor_facts ht
  show Interest.compoundRowsAux R t (P : ℝ) 1 ⌈t⌉.toNat = _
  rw [Interest.compoundRowsAux_eq R t ⌊t⌋.toNat hK hKt ⌈t⌉.toNat 1 (P : ℝ)
    le_rfl hK1 hfuel]
  rw [show ⌊t⌋.toNat + 1 - 1 = ⌊t⌋.toNat by omega]
  refine List.map_congr_left fun i _ => ?_
  simp only [Interest.YearRow.mk.injEq, show 1 + i = i + 1 from by omega]

theorem Interest.generateYearWiseBreakdown_simple_partial (P R t : ℚ) (h0 : 0 < t)
    (h1 : t < 1) :
    Interest.generateYearWiseBreakdown P R t .simple =
      [{ year := t
         principalAtStart := (P : ℝ)
         interestForYear := ((((P * R) / 100) * (t - ⌊t⌋) : ℚ) : ℝ)
         totalAtEnd := ((P + ((P * R) / 100) * t : ℚ) : ℝ) }] := by
  have hfl : ⌊t⌋ = 0 := Int.floor_eq_zero_iff.mpr ⟨h0.le, h1⟩
  have hcl : ⌈t⌉ = 1 := by
    rw [Int.ceil_eq_iff]
    constructor
    · push_cast
      linarith
    · push_cast
      linarith
  have hgt : ((1 : ℕ) : ℚ) > t := by push_cast; exact h1
  have hne : ¬(((1 : ℕ) : ℤ) = ⌊t⌋) := by norm_num [hfl]
  show Interest.simpleRowsAux P ((P * R) / 100) t 1 ⌈t⌉.toNat = _
  rw [hcl]
  show Interest.simpleRowsAux P ((P * R) / 100) t 1 1 = _
  simp only [Interest.simpleRowsAux, if_pos hgt, if_neg hne]

theorem Interest.generateYearWiseBreakdown_compound_partial (P R t : ℚ) (h0 : 0 < t)
    (h1 : t < 1) :
    Interest.generateYearWiseBreakdown P R t .compound =
      [{ year := t
         principalAtStart := (P : ℝ)
         interestForYear := (P : ℝ) * ((1 + (R : ℝ) / 100) ^ (((t - ⌊t⌋ : ℚ)) : ℝ) - 1)
         totalAtEnd := (P : ℝ) + (P : ℝ) * ((1 + (R : ℝ) / 100) ^ (((t - ⌊t⌋ : ℚ)) : ℝ) - 1) }] := by
  have hfl : ⌊t⌋ = 0 := Int.floor_eq_zero_iff.mpr ⟨h0.le, h1⟩
  have hcl : ⌈t⌉ = 1 := by
    rw [Int.ceil_eq_iff]
    constructor
    · push_cast
      linarith
    · push_cast
      linarith
  have hgt : ((1 : ℕ) : ℚ) > t := by push_cast; exact h1
  have hne : ¬(((1 : ℕ) : ℤ) = ⌊t⌋) := by norm_num [hfl]
  show Interest.compoundRowsAux R t (P : ℝ) 1 ⌈t⌉.toNat = _
  rw [hcl]
  show Interest.compoundRowsAux R t (P : ℝ) 1 1 = _
  simp only [Interest.compoundRowsAux, if_pos hgt, if_neg hne]

theorem Interest.interest_validateInputs_ok {P R t : ℚ} (ty : Interest.InterestType) (hP : 0 < P)
    (hR0 : 0 ≤ R) (hR100 : R ≤ 100) (ht0 : 0 < t) (ht100 : t ≤ 100) :
    Interest.validateInputs P R t ty = .ok () := by
  unfold Interest.validateInputs
  rw [if_neg (by push_neg; exact ⟨hP.ne.symm, hP⟩),
    if_neg (by push_neg; exact ⟨hR0, hR100⟩),
    if_neg (by push_neg; exact ⟨ht0.ne.symm, ht0, ht100⟩),
    if_neg (by cases ty <;> simp)]

theorem Interest.calculateInterest_simple_ok {P R t : ℚ}
    (h : Interest.validateInputs P R t .simple = .ok ()) :
    Interest.calculateInterest P R t .simple = .ok
      { principal := P
        interestRate := R
        timePeriod := t
        interestType := .simple
        interestAmount := round2R ((Interest.calculateSimpleInterest P R t).1)
        totalAmount := round2R ((Interest.calculateSimpleInterest P R t).2)
        growthRate := round2R (((Interest.calculateSimpleInterest P R t).1 / (P : ℝ)) * 100)
        yearWiseBreakdown := (Interest.generateYearWiseBreakdown P R t .simple).map fun item =>
          { year := item.year
            principalAtStart := round2R item.principalAtStart
            interestForYear := round2R item.interestForYear
            totalAtEnd := round2R item.totalAtEnd } } := by
  unfold Interest.calculateInterest
  rw [h]
  rfl

theorem Interest.calculateInterest_compound_ok {P R t : ℚ}
    (h : Interest.validateInputs P R t .compound = .ok ()) :
    Interest.calculateInterest P R t .compound = .ok
      { principal := P
        interestRate := R
        timePeriod := t
        interestType := .compound
        interestAmount := round2R ((Interest.calculateCompoundInterest P R t).1)
        totalAmount := round2R ((Interest.calculateCompoundInterest P R t).2)
        growthRate := round2R (((Interest.calculateCompoundInterest P R t).1 / (P : ℝ)) * 100)
        yearWiseBreakdown := (Interest.generateYearWiseBreakdown P R t .compound).map fun item =>
          { year := item.year
            principalAtStart := round2R item.principalAtStart
            interestForYear := round2R item.interestForYear
            totalAtEnd := round2R item.totalAtEnd } } := by
  unfold Interest.calculateInterest
  rw [h]
  rfl

/-- **C2.** In `generateYearWiseBreakdown`, the loop terminates exactly when the
entry with `year === floor(T)` has been processed.  Consequently — contrary to
the original claim — for `T ≥ 1` the breakdown consists of exactly `⌊T⌋`
full-year entries labelled `1..⌊T⌋` and, when `T` is non-integer, the loop
*never* reaches the extra partial entry past the integer floor.  Only for
`0 < T < 1` (where `floor(T) = 0` never matches the loop counter) does a single
prorated partial entry appear: its simple interest scales the flat yearly
interest by `T - ⌊T⌋` and its compound interest raises the rate factor to the
fractional exponent `T - ⌊T⌋`. -/
theorem C2_breakdown_loop_termination (P R t : ℚ) (ty : Interest.InterestType) (h0 : 0 < t) :
    (1 ≤ t →
      (Interest.generateYearWiseBreakdown P R t ty).map (fun row => row.year) =
        (List.range ⌊t⌋.toNat).map (fun i => ((i + 1 : ℕ) : ℚ)) ∧
      (Interest.generateYearWiseBreakdown P R t ty).length = ⌊t⌋.toNat) ∧
    (t < 1 →
      (ty = .simple → Interest.generateYearWiseBreakdown P R t ty =
        [{ year := t
           principalAtStart := (P : ℝ)
           interestForYear := ((((P * R) / 100) * (t - ⌊t⌋) : ℚ) : ℝ)
           totalAtEnd := ((P + ((P * R) / 100) * t : ℚ) : ℝ) }]) ∧
      (ty = .compound → Interest.generateYearWiseBreakdown P R t ty =
        [{ year := t
           principalAtStart := (P : ℝ)
           interestForYear := (P : ℝ) * ((1 + (R : ℝ) / 100) ^ (((t - ⌊t⌋ : ℚ)) : ℝ) - 1)
           totalAtEnd :=
             (P : ℝ) + (P : ℝ) * ((1 + (R : ℝ) / 100) ^ (((t - ⌊t⌋ : ℚ)) : ℝ) - 1) }])) := by
  constructor
  · intro ht
    cases ty with
    | simple =>
      rw [Interest.generateYearWiseBreakdown_simple_eq P R t ht]
      constructor
      · rw [List.map_map]
        rfl
      · rw [List.length_map, List.length_range]
    | compound =>
      rw [Interest.generateYearWiseBreakdown_compound_eq P R t ht]
      constructor
      · rw [List.map_map]
        rfl
      · rw [List.length_map, List.length_range]
  · intro ht
    constructor
    · intro hty
      subst hty
      exact Interest.generateYearWiseBreakdown_simple_partial P R t h0 ht
    · intro hty
      subst hty
      exact Interest.generateYearWiseBreakdown_compound_partial P R t h0 ht

/-- **C2 counterexample.** At `time = 1.5` (simple interest) the breakdown has a
single entry — the loop breaks right after year `1 = ⌊1.5⌋` — even though
`ceil(1.5) = 2`, so no partial entry past the integer floor is ever processed,
contradicting the claim that the loop "always processes one extra partial entry
past the integer floor when T is non-integer". -/
theorem C2_counterexample_no_partial_entry :
    (Interest.generateYearWiseBreakdown 100 10 (3/2) Interest.InterestType.simple).length = 1 ∧
    ⌈(3/2 : ℚ)⌉.toNat = 2 ∧ (1 : ℕ) ≠ 2 := by
  have hceil : ⌈(3/2 : ℚ)⌉.toNat = 2 := by
    rw [show ⌈(3/2 : ℚ)⌉ = 2 from by rw [Int.ceil_eq_iff]; norm_num]
    rfl
  refine ⟨?_, hceil, by norm_num⟩
  show (Interest.simpleRowsAux 100 ((100 * 10) / 100) (3/2) 1 ⌈(3/2 : ℚ)⌉.toNat).length = 1
  rw [hceil]
  have hgt : ¬(((1 : ℕ) : ℚ) > (3/2 : ℚ)) := by push_cast; norm_num
  have heq : (((1 : ℕ) : ℤ) = ⌊(3/2 : ℚ)⌋) := by
    rw [show ⌊(3/2 : ℚ)⌋ = 1 from by norm_num]
    rfl
  simp only [Interest.simpleRowsAux, if_neg hgt, if_pos heq]
  rfl

theorem C2_breakdown_loop_termination_witness :
    (Interest.generateYearWiseBreakdown 100 10 (5/2) Interest.InterestType.simple).length =
      ⌊(5/2 : ℚ)⌋.toNat :=
  ((C2_breakdown_loop_termination 100 10 (5/2) Interest.InterestType.simple
    (by norm_num)).1 (by norm_num)).2

/-- **C3.** For a positive integer time period `K` (and inputs passing
validation), the returned `yearWiseBreakdown` of `calculateInterest` has entries
contiguous from year 1 to `K` (`= ceil(K)` for integer `K`); in the *compound*
case the `totalAtEnd` of year `N` equals the `principalAtStart` of year `N+1`;
in the *simple* case — contrary to the original claim — every entry's
`principalAtStart` is the (rounded) original principal rather than the previous
closing balance; and the final entry's `totalAtEnd` equals the overall
`totalAmount` (exactly, both being the same value rounded to 2 decimals). -/
theorem C3_breakdown_invariants (P R : ℚ) (K : ℕ) (ty : Interest.InterestType)
    (hP : 0 < P) (hR0 : 0 ≤ R) (hR100 : R ≤ 100) (hK1 : 1 ≤ K) (hK100 : (K : ℚ) ≤ 100) :
    ∃ res, Interest.calculateInterest P R (K : ℚ) ty = .ok res ∧
      res.yearWiseBreakdown.map (fun row => row.year) =
        (List.range K).map (fun i => ((i + 1 : ℕ) : ℚ)) ∧
      res.yearWiseBreakdown.length = K ∧
      (ty = .compound → Interest.Chained res.yearWiseBreakdown) ∧
      (ty = .simple → ∀ row ∈ res.yearWiseBreakdown, row.principalAtStart = round2R (P : ℝ)) ∧
      (res.yearWiseBreakdown.get? (K - 1)).map (fun row => row.totalAtEnd) =
        some res.totalAmount := by
  have ht0 : (0 : ℚ) < (K : ℚ) := by exact_mod_cast Nat.lt_of_lt_of_le Nat.zero_lt_one hK1
  have ht1 : (1 : ℚ) ≤ (K : ℚ) := by exact_mod_cast hK1
  have hfloor : (⌊((K : ℕ) : ℚ)⌋).toNat = K := by
    rw [Int.floor_natCast]
    rfl
  cases ty with
  | simple =>
    refine ⟨_, Interest.calculateInterest_simple_ok
      (Interest.interest_validateInputs_ok _ hP hR0 hR100 ht0 hK100), ?_, ?_, ?_, ?_, ?_⟩
    · rw [Interest.generateYearWiseBreakdown_simple_eq P R (K : ℚ) ht1, hfloor,
        List.map_map, List.map_map]
      rfl
    · rw [Interest.generateYearWiseBreakdown_simple_eq P R (K : ℚ) ht1, hfloor,
        List.length_map, List.length_map, List.length_range]
    · intro h
      exact absurd h (by simp)
    · intro _ row hrow
      rw [Interest.generateYearWiseBreakdown_simple_eq P R (K : ℚ) ht1, hfloor,
        List.map_map, List.mem_map] at hrow
      obtain ⟨i, _, rfl⟩ := hrow
      rfl
    · rw [Interest.generateYearWiseBreakdown_simple_eq P R (K : ℚ) ht1, hfloor,
        List.map_map, List.get?_map, List.get?_range (by omega : K - 1 < K)]
      show some (round2R _) = some (round2R _)
      refine congrArg _ (congrArg _ ?_)
      show ((P + ((P * R) / 100) * ((K - 1 + 1 : ℕ) : ℚ) : ℚ) : ℝ) = _
      rw [show K - 1 + 1 = K from by omega]
      show _ = (P : ℝ) + ((P : ℝ) * (R : ℝ) * (((K : ℕ) : ℚ) : ℝ)) / 100
      push_cast
      ring
  | compound =>
    refine ⟨_, Interest.calculateInterest_compound_ok
      (Interest.interest_validateInputs_ok _ hP hR0 hR100 ht0 hK100), ?_, ?_, ?_, ?_, ?_⟩
    · rw [Interest.generateYearWiseBreakdown_compound_eq P R (K : ℚ) ht1, hfloor,
        List.map_map, List.map_map]
      rfl
    · rw [Interest.generateYearWiseBreakdown_compound_eq P R (K : ℚ) ht1, hfloor,
        List.length_map, List.length_map, List.length_range]
    · intro _
      intro i hlen
      rw [Interest.generateYearWiseBreakdown_compound_eq P R (K : ℚ) ht1, hfloor,
        List.map_map] at hlen ⊢
      rw [List.length_map, List.length_range] at hlen
      rw [List.get?_map, List.get?_map, List.get?_range (by omega : i < K),
        List.get?_range (by omega : i + 1 < K)]
      rfl
    · intro h
      exact absurd h (by simp)
    · rw [Interest.generateYearWiseBreakdown_compound_eq P R (K : ℚ) ht1, hfloor,
        List.map_map, List.get?_map, List.get?_range (by omega : K - 1 < K)]
      show some (round2R _) = some (round2R _)
      refine congrArg _ (congrArg _ ?_)
      show (P : ℝ) * (1 + (R : ℝ) / 100) ^ (K - 1 + 1) = _
      rw [show K - 1 + 1 = K from by omega]
      show _ = (P : ℝ) * (1 + (R : ℝ) / 100) ^ ((((K : ℕ) : ℚ)) : ℝ)
      rw [Rat.cast_natCast, Real.rpow_natCast]

/-- **C3 counterexample.** For the spec's own scenario
`calculateInterest(10000, 5, 2, simple)` the breakdown rows are
`(1, 10000, 500, 10500)` and `(2, 10000, 500, 11000)`: the closing balance of
year 1 (10500) does *not* equal the opening balance of year 2 (10000), so the
chaining invariant fails for simple interest; and for the fractional period
`T = 1.5` the breakdown has a single entry although `ceil(1.5) = 2`, so the
entries are not contiguous from 1 to `ceil(T)`. -/
theorem C3_counterexample_simple_chaining_and_ceil :
    (Interest.calculateInterest 10000 5 2 Interest.InterestType.simple).map
      (fun res => res.yearWiseBreakdown.map (fun row =>
        (row.year, row.principalAtStart, row.interestForYear, row.totalAtEnd))) =
      .ok [((1 : ℚ), (10000 : ℝ), (500 : ℝ), (10500 : ℝ)),
           ((2 : ℚ), (10000 : ℝ), (500 : ℝ), (11000 : ℝ))] ∧
    (10500 : ℝ) ≠ (10000 : ℝ) ∧
    (Interest.calculateInterest 10000 5 (3/2) Interest.InterestType.simple).map
      (fun res => res.yearWiseBreakdown.length) = .ok 1 ∧
    ⌈(3/2 : ℚ)⌉.toNat = 2 := by
  refine ⟨?_, by norm_num, ?_, ?_⟩
  · rw [Interest.calculateInterest_simple_ok
      (Interest.interest_validateInputs_ok _ (by norm_num) (by norm_num) (by norm_num)
        (by norm_num) (by norm_num)),
      Interest.generateYearWiseBreakdown_simple_eq 10000 5 2 (by norm_num)]
    rw [show (⌊(2 : ℚ)⌋).toNat = 2 from by rw [show ⌊(2 : ℚ)⌋ = 2 from by norm_num]; rfl]
    simp only [Except.map, List.range_succ, List.range_zero, List.nil_append,
      List.map_append, List.map_cons, List.map_nil, List.singleton_append, List.cons_append,
      round2R_ratCast]
    norm_num [round2_eq_intFloor]
  · rw [Interest.calculateInterest_simple_ok
      (Interest.interest_validateInputs_ok _ (by norm_num) (by norm_num) (by norm_num)
        (by norm_num) (by norm_num)),
      Interest.generateYearWiseBreakdown_simple_eq 10000 5 (3/2) (by norm_num)]
    rw [show (⌊(3/2 : ℚ)⌋).toNat = 1 from by rw [show ⌊(3/2 : ℚ)⌋ = 1 from by norm_num]; rfl]
    rfl
  · rw [show ⌈(3/2 : ℚ)⌉ = 2 from by rw [Int.ceil_eq_iff]; norm_num]
    rfl

theorem C3_breakdown_invariants_witness :
    ∃ res, Interest.calculateInterest 10000 5 ((3 : ℕ) : ℚ)
        Interest.InterestType.compound = .ok res ∧
      res.yearWiseBreakdown.map (fun row => row.year) =
        (List.range 3).map (fun i => ((i + 1 : ℕ) : ℚ)) ∧
      res.yearWiseBreakdown.length = 3 ∧
      (Interest.InterestType.compound = .compound → Interest.Chained res.yearWiseBreakdown) ∧
      (Interest.InterestType.compound = .simple →
        ∀ row ∈ res.yearWiseBreakdown, row.principalAtStart = round2R ((10000 : ℚ) : ℝ)) ∧
      (res.yearWiseBreakdown.get? (3 - 1)).map (fun row => row.totalAtEnd) =
        some res.totalAmount :=
  C3_breakdown_invariants 10000 5 3 Interest.InterestType.compound (by norm_num)
    (by norm_num) (by norm_num) (by norm_num) (by norm_num)
